import Mathlib

/-!
# Verification of the KVObject envelope library

Shallow embedding of the `kv_object` Rust crate: a tamper-evident message
envelope wrapping a typed payload with a one-byte tag, a 33-byte certificate
and a 64-byte signature.  Bytes are modelled as `List Nat`; fallible Rust
functions returning `Result` become `Except`/`Option`; functions that can
also panic (index out of bounds) return `RustResult`, which has an explicit
`panicked` outcome.  The external crypto provider (certificates, signatures,
key pairs, scalars, points) is modelled as bundled structures carrying the
fixed-width encode/decode contract the specification assigns to it.
-/

/-- Error enumeration of the crate (`lib.rs`). -/
inductive KVObjectError where
  | FindTypeError
  | SerializeError
  | SerializeSignError
  | DeSerializeError
  | KVHeadVerifyError
  | KeyIndexError
  | ValueValid
deriving DecidableEq, Repr

/-- Outcome of a Rust function that may panic (index out of bounds) in
addition to returning `Result`. -/
inductive RustResult (ε : Type) (α : Type) where
  | panicked
  | error (e : ε)
  | ok (a : α)
deriving DecidableEq, Repr

/-- `&bytes[a..b]` on a Rust slice (for in-range `a ≤ b ≤ len`). -/
def listSlice (l : List Nat) (a b : Nat) : List Nat :=
  (l.drop a).take (b - a)

/- Header layout constants (`kv_object.rs`). -/

def MSGTYPE_LEN : Nat := 1

def MSGTYPE_OFFSET : Nat := 0

def MSGTYPE_END : Nat := MSGTYPE_OFFSET + MSGTYPE_LEN

def CERT_LEN : Nat := 33

def CERT_OFFSET : Nat := MSGTYPE_END

def CERT_END : Nat := CERT_OFFSET + CERT_LEN

def SIGTURE_LEN : Nat := 64

def SIGTURE_OFFSET : Nat := CERT_END

def SIGTURE_END : Nat := SIGTURE_OFFSET + SIGTURE_LEN

def HEAD_TOTAL_LEN : Nat := MSGTYPE_LEN + CERT_LEN + SIGTURE_LEN

/-- The closed message-type tag enumeration (`kv_object.rs`). -/
inductive MsgType where
  | IssueQuotaRequest
  | QuotaControlField
  | DigitalCurrency
  | QuotaRecycleReceipt
  | ConvertQoutaRequest
  | Transaction
deriving DecidableEq, Repr

/-- `MsgType::from_bytes`: length check, then match on the first byte. -/
def MsgType.from_bytes (bytes : List Nat) : Except KVObjectError MsgType :=
  match bytes with
  | [] => .error .DeSerializeError
  | b :: _ =>
    match b with
    | 1 => .ok .IssueQuotaRequest
    | 2 => .ok .QuotaControlField
    | 3 => .ok .DigitalCurrency
    | 4 => .ok .QuotaRecycleReceipt
    | 5 => .ok .ConvertQoutaRequest
    | 6 => .ok .Transaction
    | _ => .error .DeSerializeError

/-- `MsgType::to_bytes`: each variant encodes as a single byte `0x01..0x06`. -/
def MsgType.to_bytes : MsgType → List Nat
  | .IssueQuotaRequest => [1]
  | .QuotaControlField => [2]
  | .DigitalCurrency => [3]
  | .QuotaRecycleReceipt => [4]
  | .ConvertQoutaRequest => [5]
  | .Transaction => [6]

/-- The external crypto provider interface consumed by the envelope:
certificate and signature types with fixed-width (33/64 byte) binary
encode/decode, defaults, signing, certificate derivation and verification.
The width and encode/decode-inverse laws are the provider contract stated
by the specification (fixed-width binary encode/decode for Certificate and
Signature). -/
structure Provider where
  Cert : Type
  Sig : Type
  KeyPair : Type
  Rng : Type
  certToBytes : Cert → List Nat
  certFromBytes : List Nat → Option Cert
  certDefault : Cert
  sigToBytes : Sig → List Nat
  sigFromBytes : List Nat → Option Sig
  sigDefault : Sig
  sign : KeyPair → List Nat → Rng → Option Sig
  getCertificate : KeyPair → Cert
  verify : Cert → List Nat → Sig → Bool
  certLen : ∀ c, (certToBytes c).length = CERT_LEN
  sigLen : ∀ s, (sigToBytes s).length = SIGTURE_LEN
  certRoundtrip : ∀ c, certFromBytes (certToBytes c) = some c
  sigRoundtrip : ∀ s, sigFromBytes (sigToBytes s) = some s

/-- The body contract (`KVBody` + `AttrProxy`): binary encode/decode and
keyed get/set.  `setKey` mirrors Rust's `&mut self` receiver: it returns
the `Result` together with the (possibly mutated) body. -/
structure BodyOps (T : Type) where
  toBytes : T → List Nat
  fromBytes : List Nat → Except KVObjectError T
  getKey : T → String → Except KVObjectError (List Nat)
  setKey : T → String → List Nat → Except KVObjectError Unit × T

/-- The envelope record `KVObject<T>`: tag, optional certificate, optional
signature, body. -/
structure KVObject (P : Provider) (T : Type) where
  msg_type : MsgType
  cert : Option P.Cert
  signature : Option P.Sig
  t_obj : T

/-- `KVObject::new`: fresh envelope, certificate and signature absent. -/
def KVObject.new (P : Provider) {T : Type} (msg_type : MsgType) (t_obj : T) :
    KVObject P T :=
  { msg_type := msg_type, cert := none, signature := none, t_obj := t_obj }

/-- The certificate bytes `to_bytes` emits: the stored certificate's
encoding, or the default certificate's encoding when absent. -/
def KVObject.certBytes {P : Provider} {T : Type} (e : KVObject P T) :
    List Nat :=
  match e.cert with
  | some c => P.certToBytes c
  | none => P.certToBytes P.certDefault

/-- The signature bytes `to_bytes` emits: the stored signature's encoding,
or the default signature's encoding when absent. -/
def KVObject.sigBytes {P : Provider} {T : Type} (e : KVObject P T) :
    List Nat :=
  match e.signature with
  | some s => P.sigToBytes s
  | none => P.sigToBytes P.sigDefault

/-- `KVObject::to_bytes`: tag byte, then certificate bytes, then signature
bytes, then the encoded body. -/
def KVObject.to_bytes {P : Provider} {T : Type} (B : BodyOps T)
    (e : KVObject P T) : List Nat :=
  MsgType.to_bytes e.msg_type ++ e.certBytes ++ e.sigBytes ++ B.toBytes e.t_obj

/-- `KVObject::from_bytes`: length check, fixed-offset decodes of tag,
certificate and signature, rejection of a header-only buffer, then the
body's own decoder on the remainder (its error propagated). -/
def KVObject.from_bytes (P : Provider) {T : Type} (B : BodyOps T)
    (bytes : List Nat) : Except KVObjectError (KVObject P T) :=
  if bytes.length < HEAD_TOTAL_LEN then .error .DeSerializeError
  else
    match MsgType.from_bytes (listSlice bytes MSGTYPE_OFFSET MSGTYPE_END) with
    | .error _ => .error .DeSerializeError
    | .ok msg_type =>
      match P.certFromBytes (listSlice bytes CERT_OFFSET CERT_END) with
      | none => .error .DeSerializeError
      | some cert =>
        match P.sigFromBytes (listSlice bytes SIGTURE_OFFSET SIGTURE_END) with
        | none => .error .DeSerializeError
        | some signature =>
          if bytes.length = HEAD_TOTAL_LEN then .error .DeSerializeError
          else
            match B.fromBytes (bytes.drop HEAD_TOTAL_LEN) with
            | .error e => .error e
            | .ok t_obj =>
              .ok { msg_type := msg_type, cert := some cert,
                    signature := some signature, t_obj := t_obj }

/-- `KVObject::fill_kvhead`: sign the encoded body bytes; on success store
the signature and the keypair's certificate; on provider failure return
`SerializeSignError`.  Mirrors `&mut self`: the pair carries the `Result`
and the resulting envelope state. -/
def KVObject.fill_kvhead {P : Provider} {T : Type} (B : BodyOps T)
    (keypair : P.KeyPair) (rng : P.Rng) (e : KVObject P T) :
    Except KVObjectError Unit × KVObject P T :=
  match P.sign keypair (B.toBytes e.t_obj) rng with
  | none => (.error .SerializeSignError, e)
  | some signature =>
    (.ok (), { e with signature := some signature,
                      cert := some (P.getCertificate keypair) })

/-- `KVObject::verfiy_kvhead`: error when certificate or signature is
absent; otherwise ask the provider to verify the signature over the
re-encoded body bytes under the certificate. -/
def KVObject.verfiy_kvhead {P : Provider} {T : Type} (B : BodyOps T)
    (e : KVObject P T) : Except KVObjectError Unit :=
  if e.cert.isNone || e.signature.isNone then .error .KVHeadVerifyError
  else
    match e.cert, e.signature with
    | some cert, some signature =>
      if P.verify cert (B.toBytes e.t_obj) signature then .ok ()
      else .error .KVHeadVerifyError
    | _, _ => .ok ()

/-- `AttrProxy::get_key` on the envelope: delegate to the body. -/
def KVObject.get_key {P : Provider} {T : Type} (B : BodyOps T)
    (e : KVObject P T) (key : String) : Except KVObjectError (List Nat) :=
  B.getKey e.t_obj key

/-- `AttrProxy::set_key` on the envelope: delegate to the body; only the
body field of the envelope can change. -/
def KVObject.set_key {P : Provider} {T : Type} (B : BodyOps T)
    (e : KVObject P T) (key : String) (value : List Nat) :
    Except KVObjectError Unit × KVObject P T :=
  let r := B.setKey e.t_obj key value
  (r.1, { e with t_obj := r.2 })

/-- External scalar/point arithmetic consumed by `KeyPairSm2` (`sm2.rs`):
fixed-width (32/33 byte) binary encode/decode for the SM2 scalar and
point types. -/
structure Sm2Ext where
  Scalar : Type
  Point : Type
  scalarToBytes : Scalar → List Nat
  scalarFromBytes : List Nat → Option Scalar
  pointToBytes : Point → List Nat
  pointFromBytes : List Nat → Option Point
  scalarLen : ∀ s, (scalarToBytes s).length = 32
  pointLen : ∀ p, (pointToBytes p).length = 33
  scalarRoundtrip : ∀ s, scalarFromBytes (scalarToBytes s) = some s
  pointRoundtrip : ∀ p, pointFromBytes (pointToBytes p) = some p

/-- The SM2 keypair (`KeyPairSm2` wrapping the external `Keypair`): seed
and code are 32-byte arrays, plus a secret scalar and a public point.
The constructor mirrors `Keypair::new(seed, public_key, secret_key, code)`. -/
structure KeyPairSm2 (E : Sm2Ext) where
  seed : List Nat
  publicKey : E.Point
  secretKey : E.Scalar
  code : List Nat

/-- `Keypair::new(seed, pub_key, pri_key, code)`. -/
def KeyPairSm2.new (E : Sm2Ext) (seed : List Nat) (publicKey : E.Point)
    (secretKey : E.Scalar) (code : List Nat) : KeyPairSm2 E :=
  { seed := seed, publicKey := publicKey, secretKey := secretKey, code := code }

/-- `KeyPairSm2::to_bytes`: bytes 0..32 hold the seed, 32..64 the secret
key, 64..97 the public key, and 97..129 hold `get_seed()` again — the
source writes the seed into the code slot. -/
def KeyPairSm2.to_bytes {E : Sm2Ext} (kp : KeyPairSm2 E) : List Nat :=
  kp.seed ++ E.scalarToBytes kp.secretKey ++ E.pointToBytes kp.publicKey ++
    kp.seed

/-- `KeyPairSm2::from_bytes`: copies `bytes[0..32]` into the seed with no
length check (out-of-bounds access panics), decodes the secret scalar from
`bytes[32..64]` and the public point from `bytes[64..97]`, copies
`bytes[97..129]` into the code, and never checks for trailing bytes.
Checks appear in the evaluation order of the source: each slice or index
panics when the buffer is too short for it. -/
def KeyPairSm2.from_bytes (E : Sm2Ext) (bytes : List Nat) :
    RustResult KVObjectError (KeyPairSm2 E) :=
  if bytes.length < 32 then .panicked
  else if bytes.length < 64 then .panicked
  else
    match E.scalarFromBytes (listSlice bytes 32 64) with
    | none => .error .DeSerializeError
    | some pri_key =>
      if bytes.length < 97 then .panicked
      else
        match E.pointFromBytes (listSlice bytes 64 97) with
        | none => .error .DeSerializeError
        | some pub_key =>
          if bytes.length < 129 then .panicked
          else
            .ok (KeyPairSm2.new E (listSlice bytes 0 32) pub_key pri_key
              (listSlice bytes 97 129))

/-- Upper-case hex digit of a nibble (`0..15`). -/
def hexDigitUpper (n : Nat) : Char :=
  match n with
  | 0 => '0' | 1 => '1' | 2 => '2' | 3 => '3' | 4 => '4'
  | 5 => '5' | 6 => '6' | 7 => '7' | 8 => '8' | 9 => '9'
  | 10 => 'A' | 11 => 'B' | 12 => 'C' | 13 => 'D' | 14 => 'E'
  | _ => 'F'

/-- One byte as two upper-case hex digits. -/
def byteToHexUpper (b : Nat) : List Char :=
  [hexDigitUpper (b / 16), hexDigitUpper (b % 16)]

/-- `encode_hex_upper`: each byte as two upper-case hex digits. -/
def encodeHexUpper (bs : List Nat) : List Char :=
  bs.flatMap byteToHexUpper

/-- Value of one hex digit, either case (`hex::FromHex`), via the
character's code point: `0..9` are codes 48-57, `A..F` 65-70, `a..f`
97-102. -/
def hexVal (c : Char) : Option Nat :=
  let n := c.toNat
  if 48 ≤ n ∧ n ≤ 57 then some (n - 48)
  else if 65 ≤ n ∧ n ≤ 70 then some (n - 55)
  else if 97 ≤ n ∧ n ≤ 102 then some (n - 87)
  else none

/-- `Vec::<u8>::from_hex`: digits in pairs; odd length or a non-hex
character fails. -/
def fromHex : List Char → Option (List Nat)
  | [] => some []
  | [_] => none
  | c1 :: c2 :: rest =>
    match hexVal c1, hexVal c2, fromHex rest with
    | some hi, some lo, some bs => some ((16 * hi + lo) :: bs)
    | _, _, _ => none

/-- `Serialize for KeyPairSm2`: upper-case hex of the 129-byte binary
encoding. -/
def serializeKeyPairSm2 {E : Sm2Ext} (kp : KeyPairSm2 E) : List Char :=
  encodeHexUpper kp.to_bytes

/-- `Deserialize for KeyPairSm2`: hex-decode, then `from_bytes`; a hex
error surfaces as a deserialization error. -/
def deserializeKeyPairSm2 (E : Sm2Ext) (s : List Char) :
    RustResult KVObjectError (KeyPairSm2 E) :=
  match fromHex s with
  | none => .error .DeSerializeError
  | some bytes => KeyPairSm2.from_bytes E bytes

/- Concrete instances used to evaluate the definitions on explicit inputs. -/

/-- A concrete crypto provider with trivial certificate, signature and
keypair types; signing always succeeds and verification always accepts. -/
def trivProvider : Provider where
  Cert := Unit
  Sig := Unit
  KeyPair := Unit
  Rng := Unit
  certToBytes _ := List.replicate 33 0
  certFromBytes bs := if bs = List.replicate 33 0 then some () else none
  certDefault := ()
  sigToBytes _ := List.replicate 64 0
  sigFromBytes bs := if bs = List.replicate 64 0 then some () else none
  sigDefault := ()
  sign _ _ _ := some ()
  getCertificate _ := ()
  verify _ _ _ := true
  certLen _ := List.length_replicate 33 0
  sigLen _ := List.length_replicate 64 0
  certRoundtrip _ := if_pos rfl
  sigRoundtrip _ := if_pos rfl

/-- A provider identical to `trivProvider` except that signing always
fails, to exercise the provider-failure path. -/
def failSignProvider : Provider where
  Cert := Unit
  Sig := Unit
  KeyPair := Unit
  Rng := Unit
  certToBytes _ := List.replicate 33 0
  certFromBytes bs := if bs = List.replicate 33 0 then some () else none
  certDefault := ()
  sigToBytes _ := List.replicate 64 0
  sigFromBytes bs := if bs = List.replicate 64 0 then some () else none
  sigDefault := ()
  sign _ _ _ := none
  getCertificate _ := ()
  verify _ _ _ := true
  certLen _ := List.length_replicate 33 0
  sigLen _ := List.length_replicate 64 0
  certRoundtrip _ := if_pos rfl
  sigRoundtrip _ := if_pos rfl

/-- A body whose encoding is empty and whose decoder inverts its encoder. -/
def emptyBody : BodyOps Unit where
  toBytes _ := []
  fromBytes bs := if bs = [] then .ok () else .error .DeSerializeError
  getKey _ _ := .error .KeyIndexError
  setKey t _ _ := (.error .KeyIndexError, t)

/-- A body with a fixed 8-byte encoding whose decoder inverts its encoder. -/
def octetBody : BodyOps Unit where
  toBytes _ := List.replicate 8 0
  fromBytes bs := if bs = List.replicate 8 0 then .ok () else .error .DeSerializeError
  getKey _ _ := .error .KeyIndexError
  setKey t _ _ := (.error .KeyIndexError, t)

/-- A body holding one 4-byte field under key `"x"`, mirroring the keyed
accessor contract: unknown key fails with the key-index error, a value of
the wrong length fails with the value-validation error. -/
def fieldBody : BodyOps (List Nat) where
  toBytes t := t
  fromBytes bs := if bs.length = 4 then .ok bs else .error .DeSerializeError
  getKey t k := if k = "x" then .ok t else .error .KeyIndexError
  setKey t k v :=
    if k = "x" then
      if v.length = 4 then (.ok (), v) else (.error .ValueValid, t)
    else (.error .KeyIndexError, t)

/-- Trivial scalar/point arithmetic with the contracted widths. -/
def trivSm2 : Sm2Ext where
  Scalar := Unit
  Point := Unit
  scalarToBytes _ := List.replicate 32 0
  scalarFromBytes bs := if bs.length = 32 then some () else none
  pointToBytes _ := List.replicate 33 0
  pointFromBytes bs := if bs.length = 33 then some () else none
  scalarLen _ := List.length_replicate 32 0
  pointLen _ := List.length_replicate 33 0
  scalarRoundtrip _ := if_pos (List.length_replicate 32 0)
  pointRoundtrip _ := if_pos (List.length_replicate 33 0)

/- Helper lemmas. -/

lemma msgtype_to_bytes_length (m : MsgType) : (MsgType.to_bytes m).length = 1 := by
  cases m <;> rfl

lemma msgtype_from_to (m : MsgType) :
    MsgType.from_bytes (MsgType.to_bytes m) = .ok m := by
  cases m <;> rfl

lemma certBytes_length {P : Provider} {T : Type} (e : KVObject P T) :
    e.certBytes.length = CERT_LEN := by
  unfold KVObject.certBytes
  cases e.cert <;> exact P.certLen _

lemma sigBytes_length {P : Provider} {T : Type} (e : KVObject P T) :
    e.sigBytes.length = SIGTURE_LEN := by
  unfold KVObject.sigBytes
  cases e.signature <;> exact P.sigLen _

/-- Slicing a header-shaped append chain at the fixed offsets recovers the
pieces. -/
lemma slice_chain (a b c d : List Nat) (ha : a.length = 1)
    (hb : b.length = 33) (hc : c.length = 64) :
    listSlice (a ++ b ++ c ++ d) 0 1 = a ∧
    listSlice (a ++ b ++ c ++ d) 1 34 = b ∧
    listSlice (a ++ b ++ c ++ d) 34 98 = c ∧
    (a ++ b ++ c ++ d).drop 98 = d ∧
    (a ++ b ++ c ++ d).length = 98 + d.length := by
  have hab : (a ++ b).length = 34 := by simp [ha, hb]
  have habc : (a ++ b ++ c).length = 98 := by simp [ha, hb, hc]
  refine ⟨?_, ?_, ?_, ?_, ?_⟩
  · show ((a ++ b ++ c ++ d).drop 0).take 1 = a
    rw [List.drop_zero, show a ++ b ++ c ++ d = a ++ (b ++ c ++ d) by simp,
      List.take_left' ha]
  · show ((a ++ b ++ c ++ d).drop 1).take 33 = b
    rw [show a ++ b ++ c ++ d = a ++ (b ++ (c ++ d)) by simp,
      List.drop_left' ha, List.take_left' hb]
  · show ((a ++ b ++ c ++ d).drop 34).take 64 = c
    rw [show a ++ b ++ c ++ d = (a ++ b) ++ (c ++ d) by simp,
      List.drop_left' hab, List.take_left' hc]
  · rw [show a ++ b ++ c ++ d = (a ++ b ++ c) ++ d by simp,
      List.drop_left' habc]
  · simp only [List.length_append, ha, hb, hc]

/-- C8: every `MsgType` variant round-trips through its one-byte encoding;
the six variants occupy the distinct non-zero bytes `0x01..0x06` densely;
decoding fails for the empty input, for byte `0x00`, and for every byte
outside the table. -/
theorem msgtype_bytes_spec :
    (∀ m : MsgType, MsgType.from_bytes (MsgType.to_bytes m) = .ok m) ∧
    (∀ m : MsgType, ∃ b, MsgType.to_bytes m = [b] ∧ 1 ≤ b ∧ b ≤ 6) ∧
    (∀ m m' : MsgType, MsgType.to_bytes m = MsgType.to_bytes m' → m = m') ∧
    (∀ b : Nat, 1 ≤ b → b ≤ 6 → ∃ m : MsgType, MsgType.to_bytes m = [b]) ∧
    MsgType.from_bytes [] = .error .DeSerializeError ∧
    MsgType.from_bytes [0] = .error .DeSerializeError ∧
    (∀ b : Nat, 7 ≤ b → MsgType.from_bytes [b] = .error .DeSerializeError) := by
  refine ⟨msgtype_from_to, ?_, ?_, ?_, rfl, rfl, ?_⟩
  · intro m
    cases m
    · exact ⟨1, rfl, by omega, by omega⟩
    · exact ⟨2, rfl, by omega, by omega⟩
    · exact ⟨3, rfl, by omega, by omega⟩
    · exact ⟨4, rfl, by omega, by omega⟩
    · exact ⟨5, rfl, by omega, by omega⟩
    · exact ⟨6, rfl, by omega, by omega⟩
  · intro m m' h
    cases m <;> cases m' <;> first | rfl | simp [MsgType.to_bytes] at h
  · intro b h1 h6
    interval_cases b
    · exact ⟨.IssueQuotaRequest, rfl⟩
    · exact ⟨.QuotaControlField, rfl⟩
    · exact ⟨.DigitalCurrency, rfl⟩
    · exact ⟨.QuotaRecycleReceipt, rfl⟩
    · exact ⟨.ConvertQoutaRequest, rfl⟩
    · exact ⟨.Transaction, rfl⟩
  · intro b hb
    obtain ⟨n, rfl⟩ := Nat.exists_eq_add_of_le hb
    rw [Nat.add_comm]
    rfl

/-- Witness for C8: the theorem applied at variant `Transaction` and at the
out-of-table byte `7`. -/
theorem msgtype_bytes_spec_witness :
    MsgType.from_bytes (MsgType.to_bytes .Transaction) = .ok .Transaction ∧
    MsgType.from_bytes [7] = .error .DeSerializeError :=
  ⟨msgtype_bytes_spec.1 .Transaction,
   msgtype_bytes_spec.2.2.2.2.2.2 7 (by decide)⟩

/-- C5: `to_bytes` places the 1-byte tag at offset 0, the 33 certificate
bytes at offsets 1..34, the 64 signature bytes at offsets 34..98 and the
encoded body from offset 98 on, so the total length is exactly 98 plus the
body encoding's length (106 for an 8-byte body); an absent certificate or
signature is emitted as the default encoding, so offsets never shift. -/
theorem kvobject_to_bytes_layout {P : Provider} {T : Type} (B : BodyOps T)
    (e : KVObject P T) :
    KVObject.to_bytes B e =
      MsgType.to_bytes e.msg_type ++ e.certBytes ++ e.sigBytes ++
        B.toBytes e.t_obj ∧
    listSlice (KVObject.to_bytes B e) MSGTYPE_OFFSET MSGTYPE_END =
      MsgType.to_bytes e.msg_type ∧
    listSlice (KVObject.to_bytes B e) CERT_OFFSET CERT_END = e.certBytes ∧
    listSlice (KVObject.to_bytes B e) SIGTURE_OFFSET SIGTURE_END =
      e.sigBytes ∧
    (KVObject.to_bytes B e).drop HEAD_TOTAL_LEN = B.toBytes e.t_obj ∧
    (KVObject.to_bytes B e).length =
      HEAD_TOTAL_LEN + (B.toBytes e.t_obj).length ∧
    (e.cert = none → e.certBytes = P.certToBytes P.certDefault) ∧
    (e.signature = none → e.sigBytes = P.sigToBytes P.sigDefault) ∧
    ((B.toBytes e.t_obj).length = 8 → (KVObject.to_bytes B e).length = 106) := by
  obtain ⟨h1, h2, h3, h4, h5⟩ :=
    slice_chain (MsgType.to_bytes e.msg_type) e.certBytes e.sigBytes
      (B.toBytes e.t_obj) (msgtype_to_bytes_length e.msg_type)
      (certBytes_length e) (sigBytes_length e)
  refine ⟨rfl, h1, h2, h3, h4, h5, ?_, ?_, ?_⟩
  · intro hc
    unfold KVObject.certBytes
    rw [hc]
  · intro hs
    unfold KVObject.sigBytes
    rw [hs]
  · intro h8
    show (MsgType.to_bytes e.msg_type ++ e.certBytes ++ e.sigBytes ++
      B.toBytes e.t_obj).length = 106
    rw [h5, h8]

/-- Witness for C5: a fresh envelope around an 8-byte body serializes to
106 bytes, with the absent certificate emitted as the default encoding. -/
theorem kvobject_to_bytes_layout_witness :
    (KVObject.to_bytes octetBody
      (KVObject.new trivProvider MsgType.Transaction ())).length = 106 ∧
    (KVObject.new trivProvider (T := Unit) MsgType.Transaction ()).certBytes =
      trivProvider.certToBytes trivProvider.certDefault :=
  ⟨(kvobject_to_bytes_layout octetBody
      (KVObject.new trivProvider MsgType.Transaction ())).2.2.2.2.2.2.2.2 rfl,
   (kvobject_to_bytes_layout octetBody
      (KVObject.new trivProvider MsgType.Transaction ())).2.2.2.2.2.2.1 rfl⟩

/-- C2: `KVObject::from_bytes` returns an error exactly when the buffer is
shorter than the 98-byte header, or exactly 98 bytes (header with no
body), or the tag/certificate/signature fixed-range decodes fail, or the
body decoder fails on the remainder; in the last case the body's error is
propagated unchanged.  The definition never consults the provider's
`verify`, so decoding never fails because a signature does not verify. -/
theorem kvobject_from_bytes_error_spec (P : Provider) {T : Type}
    (B : BodyOps T) (bytes : List Nat) :
    ((∃ er, KVObject.from_bytes P B bytes = .error er) ↔
      bytes.length < HEAD_TOTAL_LEN ∨ bytes.length = HEAD_TOTAL_LEN ∨
      (∃ er, MsgType.from_bytes (listSlice bytes MSGTYPE_OFFSET MSGTYPE_END) =
        .error er) ∨
      P.certFromBytes (listSlice bytes CERT_OFFSET CERT_END) = none ∨
      P.sigFromBytes (listSlice bytes SIGTURE_OFFSET SIGTURE_END) = none ∨
      (∃ er, B.fromBytes (bytes.drop HEAD_TOTAL_LEN) = .error er)) ∧
    (HEAD_TOTAL_LEN < bytes.length →
      (∃ m, MsgType.from_bytes (listSlice bytes MSGTYPE_OFFSET MSGTYPE_END) =
        .ok m) →
      (∃ c, P.certFromBytes (listSlice bytes CERT_OFFSET CERT_END) = some c) →
      (∃ s, P.sigFromBytes (listSlice bytes SIGTURE_OFFSET SIGTURE_END) =
        some s) →
      ∀ er, (KVObject.from_bytes P B bytes = .error er ↔
        B.fromBytes (bytes.drop HEAD_TOTAL_LEN) = .error er)) := by
  by_cases hlt : bytes.length < HEAD_TOTAL_LEN
  · refine ⟨?_, ?_⟩
    · simp [KVObject.from_bytes, hlt]
    · intro hgt
      omega
  · cases h1 : MsgType.from_bytes (listSlice bytes MSGTYPE_OFFSET MSGTYPE_END) with
    | error er1 =>
      refine ⟨?_, ?_⟩
      · constructor
        · intro _
          exact Or.inr (Or.inr (Or.inl ⟨er1, rfl⟩))
        · intro _
          exact ⟨.DeSerializeError, by simp [KVObject.from_bytes, hlt, h1]⟩
      · intro _ hm _ _
        obtain ⟨m, hm⟩ := hm
        simp at hm
    | ok m =>
      cases h2 : P.certFromBytes (listSlice bytes CERT_OFFSET CERT_END) with
      | none =>
        refine ⟨?_, ?_⟩
        · constructor
          · intro _
            exact Or.inr (Or.inr (Or.inr (Or.inl rfl)))
          · intro _
            exact ⟨.DeSerializeError, by simp [KVObject.from_bytes, hlt, h1, h2]⟩
        · intro _ _ hc _
          obtain ⟨c, hc⟩ := hc
          simp at hc
      | some c =>
        cases h3 : P.sigFromBytes (listSlice bytes SIGTURE_OFFSET SIGTURE_END) with
        | none =>
          refine ⟨?_, ?_⟩
          · constructor
            · intro _
              exact Or.inr (Or.inr (Or.inr (Or.inr (Or.inl rfl))))
            · intro _
              exact ⟨.DeSerializeError,
                by simp [KVObject.from_bytes, hlt, h1, h2, h3]⟩
          · intro _ _ _ hs
            obtain ⟨s, hs⟩ := hs
            simp at hs
        | some s =>
          by_cases heq : bytes.length = HEAD_TOTAL_LEN
          · refine ⟨?_, ?_⟩
            · constructor
              · intro _
                exact Or.inr (Or.inl heq)
              · intro _
                exact ⟨.DeSerializeError,
                  by simp [KVObject.from_bytes, hlt, h1, h2, h3, heq]⟩
            · intro hgt
              omega
          · cases h4 : B.fromBytes (bytes.drop HEAD_TOTAL_LEN) with
            | error er4 =>
              refine ⟨?_, ?_⟩
              · constructor
                · intro _
                  exact Or.inr (Or.inr (Or.inr (Or.inr (Or.inr ⟨er4, rfl⟩))))
                · intro _
                  exact ⟨er4, by simp [KVObject.from_bytes, hlt, h1, h2, h3, heq, h4]⟩
              · intro _ _ _ _ er
                simp [KVObject.from_bytes, hlt, h1, h2, h3, heq, h4]
            | ok t =>
              refine ⟨?_, ?_⟩
              · constructor
                · intro her
                  obtain ⟨er, her⟩ := her
                  simp [KVObject.from_bytes, hlt, h1, h2, h3, heq, h4] at her
                · intro hrhs
                  rcases hrhs with h | h | ⟨er, h⟩ | h | h | ⟨er, h⟩
                  · omega
                  · omega
                  · simp at h
                  · simp at h
                  · simp at h
                  · simp at h
              · intro _ _ _ _ er
                simp [KVObject.from_bytes, hlt, h1, h2, h3, heq, h4]

/-- Witness for C2: a 99-byte buffer with a valid header and a 1-byte body
the body decoder rejects makes `from_bytes` propagate the body's error. -/
theorem kvobject_from_bytes_error_spec_witness :
    KVObject.from_bytes trivProvider octetBody
        (1 :: (List.replicate 33 0 ++ (List.replicate 64 0 ++ [0]))) =
      .error .DeSerializeError :=
  ((kvobject_from_bytes_error_spec trivProvider octetBody
      (1 :: (List.replicate 33 0 ++ (List.replicate 64 0 ++ [0])))).2
    (by simp [HEAD_TOTAL_LEN, MSGTYPE_LEN, CERT_LEN, SIGTURE_LEN])
    ⟨.IssueQuotaRequest, rfl⟩
    ⟨(), by rfl⟩
    ⟨(), by rfl⟩
    .DeSerializeError).mpr (by rfl)

/-- C3: `fill_kvhead` passes exactly the encoded body bytes to the
provider's signing operation; on success it stores the fresh signature and
the certificate derived from the same keypair together and returns ok; on
provider failure it returns `SerializeSignError` and the envelope is
unchanged — never half-signed. -/
theorem kvobject_fill_kvhead_spec {P : Provider} {T : Type} (B : BodyOps T)
    (keypair : P.KeyPair) (rng : P.Rng) (e : KVObject P T) :
    (∀ s, P.sign keypair (B.toBytes e.t_obj) rng = some s →
      KVObject.fill_kvhead B keypair rng e =
        (.ok (), { e with cert := some (P.getCertificate keypair),
                          signature := some s })) ∧
    (P.sign keypair (B.toBytes e.t_obj) rng = none →
      KVObject.fill_kvhead B keypair rng e =
        (.error .SerializeSignError, e)) := by
  constructor
  · intro s hs
    unfold KVObject.fill_kvhead
    rw [hs]
  · intro hn
    unfold KVObject.fill_kvhead
    rw [hn]

/-- Witness for C3: with a provider whose signing succeeds, a fresh
envelope comes out fully signed; with one whose signing fails, the
envelope is returned unchanged with `SerializeSignError`. -/
theorem kvobject_fill_kvhead_spec_witness :
    KVObject.fill_kvhead octetBody () ()
        (KVObject.new trivProvider MsgType.Transaction ()) =
      (.ok (), { KVObject.new trivProvider MsgType.Transaction () with
                  cert := some (trivProvider.getCertificate ()),
                  signature := some () }) ∧
    KVObject.fill_kvhead octetBody () ()
        (KVObject.new failSignProvider MsgType.Transaction ()) =
      (.error .SerializeSignError,
        KVObject.new failSignProvider MsgType.Transaction ()) :=
  ⟨(kvobject_fill_kvhead_spec octetBody () ()
      (KVObject.new trivProvider MsgType.Transaction ())).1 () (by rfl),
   (kvobject_fill_kvhead_spec octetBody () ()
      (KVObject.new failSignProvider MsgType.Transaction ())).2 (by rfl)⟩

/-- C4: `verfiy_kvhead` fails exactly when the certificate or the
signature is absent, or both are present but the provider's verify of the
signature over the re-encoded body bytes under the certificate returns
false; every failure is the single error `KVHeadVerifyError`; otherwise it
returns ok. -/
theorem kvobject_verfiy_kvhead_spec {P : Provider} {T : Type} (B : BodyOps T)
    (e : KVObject P T) :
    ((∃ er, KVObject.verfiy_kvhead B e = .error er) ↔
      e.cert = none ∨ e.signature = none ∨
      (∃ c s, e.cert = some c ∧ e.signature = some s ∧
        P.verify c (B.toBytes e.t_obj) s = false)) ∧
    (∀ er, KVObject.verfiy_kvhead B e = .error er →
      er = .KVHeadVerifyError) ∧
    ((¬ (e.cert = none ∨ e.signature = none ∨
      (∃ c s, e.cert = some c ∧ e.signature = some s ∧
        P.verify c (B.toBytes e.t_obj) s = false))) →
      KVObject.verfiy_kvhead B e = .ok ()) := by
  cases hc : e.cert with
  | none =>
    refine ⟨?_, ?_, ?_⟩
    · simp [KVObject.verfiy_kvhead, hc]
    · intro er her
      simp [KVObject.verfiy_kvhead, hc] at her
      exact her.symm
    · intro hn
      exact absurd (Or.inl rfl) hn
  | some c =>
    cases hs : e.signature with
    | none =>
      refine ⟨?_, ?_, ?_⟩
      · simp [KVObject.verfiy_kvhead, hc, hs]
      · intro er her
        simp [KVObject.verfiy_kvhead, hc, hs] at her
        exact her.symm
      · intro hn
        exact absurd (Or.inr (Or.inl rfl)) hn
    | some s =>
      cases hv : P.verify c (B.toBytes e.t_obj) s with
      | false =>
        refine ⟨?_, ?_, ?_⟩
        · simp [KVObject.verfiy_kvhead, hc, hs, hv]
        · intro er her
          simp [KVObject.verfiy_kvhead, hc, hs, hv] at her
          exact her.symm
        · intro hn
          exact absurd (Or.inr (Or.inr ⟨c, s, rfl, rfl, hv⟩)) hn
      | true =>
        refine ⟨?_, ?_, ?_⟩
        · simp [KVObject.verfiy_kvhead, hc, hs, hv]
        · intro er her
          simp [KVObject.verfiy_kvhead, hc, hs, hv] at her
        · intro _
          simp [KVObject.verfiy_kvhead, hc, hs, hv]

/-- Witness for C4: an unsigned envelope fails verification with
`KVHeadVerifyError`. -/
theorem kvobject_verfiy_kvhead_spec_witness :
    KVObject.verfiy_kvhead octetBody
        (KVObject.new trivProvider MsgType.Transaction ()) =
      .error .KVHeadVerifyError := by
  have h := (kvobject_verfiy_kvhead_spec octetBody
      (KVObject.new trivProvider MsgType.Transaction ())).1.mpr (Or.inl rfl)
  obtain ⟨er, her⟩ := h
  have := (kvobject_verfiy_kvhead_spec octetBody
      (KVObject.new trivProvider MsgType.Transaction ())).2.1 er her
  rw [this] at her
  exact her

/-- C9: the envelope's `get_key`/`set_key` delegate exactly to the body's
keyed accessors, returning the body's result and applying exactly the
body's mutation; hence, for a body whose accessors satisfy them, set
followed by get through the envelope returns the value, an unknown key
fails with the key-index error, and a wrong-length value fails with the
value-validation error. -/
theorem kvobject_attrproxy_spec {P : Provider} {T : Type} (B : BodyOps T)
    (e : KVObject P T) (k : String) (v : List Nat) :
    KVObject.get_key B e k = B.getKey e.t_obj k ∧
    (KVObject.set_key B e k v).1 = (B.setKey e.t_obj k v).1 ∧
    (KVObject.set_key B e k v).2.t_obj = (B.setKey e.t_obj k v).2 ∧
    (B.getKey (B.setKey e.t_obj k v).2 k = .ok v →
      KVObject.get_key B (KVObject.set_key B e k v).2 k = .ok v) ∧
    (B.getKey e.t_obj k = .error .KeyIndexError →
      KVObject.get_key B e k = .error .KeyIndexError) ∧
    (B.setKey e.t_obj k v = (.error .KeyIndexError, e.t_obj) →
      (KVObject.set_key B e k v).1 = .error .KeyIndexError) ∧
    (B.setKey e.t_obj k v = (.error .ValueValid, e.t_obj) →
      (KVObject.set_key B e k v).1 = .error .ValueValid) := by
  refine ⟨rfl, rfl, rfl, ?_, ?_, ?_, ?_⟩
  · intro h
    exact h
  · intro h
    exact h
  · intro h
    show (B.setKey e.t_obj k v).1 = .error .KeyIndexError
    rw [h]
  · intro h
    show (B.setKey e.t_obj k v).1 = .error .ValueValid
    rw [h]

/-- Witness for C9: on the one-field body, setting `"x"` to a 4-byte value
through the envelope and reading it back returns the value; an unknown key
fails with the key-index error; a wrong-length value fails with the
value-validation error. -/
theorem kvobject_attrproxy_spec_witness :
    KVObject.get_key fieldBody
      (KVObject.set_key fieldBody
        (KVObject.new trivProvider MsgType.Transaction [0, 0, 0, 0])
        "x" [7, 0, 0, 0]).2 "x" = .ok [7, 0, 0, 0] ∧
    KVObject.get_key fieldBody
      (KVObject.new trivProvider MsgType.Transaction [0, 0, 0, 0]) "z" =
      .error .KeyIndexError ∧
    (KVObject.set_key fieldBody
      (KVObject.new trivProvider MsgType.Transaction [0, 0, 0, 0])
      "x" [7, 0]).1 = .error .ValueValid :=
  ⟨(kvobject_attrproxy_spec fieldBody
      (KVObject.new trivProvider MsgType.Transaction [0, 0, 0, 0])
      "x" [7, 0, 0, 0]).2.2.2.1 (by rfl),
   (kvobject_attrproxy_spec fieldBody
      (KVObject.new trivProvider MsgType.Transaction [0, 0, 0, 0])
      "z" [0, 0, 0, 0]).2.2.2.2.1 (by rfl),
   (kvobject_attrproxy_spec fieldBody
      (KVObject.new trivProvider MsgType.Transaction [0, 0, 0, 0])
      "x" [7, 0]).2.2.2.2.2.2 (by rfl)⟩

/-- C10: `set_key` mutates at most the body: the tag, the certificate and
the signature of the envelope are unchanged afterwards, whether the
delegated set succeeds or fails. -/
theorem kvobject_set_key_frame {P : Provider} {T : Type} (B : BodyOps T)
    (e : KVObject P T) (k : String) (v : List Nat) :
    (KVObject.set_key B e k v).2.msg_type = e.msg_type ∧
    (KVObject.set_key B e k v).2.cert = e.cert ∧
    (KVObject.set_key B e k v).2.signature = e.signature :=
  ⟨rfl, rfl, rfl⟩

/-- `fill_kvhead` on a successful provider signature, as an equation. -/
lemma fill_kvhead_sign_some {P : Provider} {T : Type} (B : BodyOps T)
    (keypair : P.KeyPair) (rng : P.Rng) (e : KVObject P T) (s : P.Sig)
    (hs : P.sign keypair (B.toBytes e.t_obj) rng = some s) :
    KVObject.fill_kvhead B keypair rng e =
      (.ok (), { e with cert := some (P.getCertificate keypair),
                        signature := some s }) := by
  unfold KVObject.fill_kvhead
  rw [hs]

/-- Decoding the encoding of a fully signed envelope recovers it, provided
the body's decoder inverts its encoder on this body and the body encoding
is non-empty. -/
lemma kvobject_from_to {P : Provider} {T : Type} (B : BodyOps T)
    (e : KVObject P T) (c : P.Cert) (s : P.Sig)
    (hc : e.cert = some c) (hs : e.signature = some s)
    (hbody : B.fromBytes (B.toBytes e.t_obj) = .ok e.t_obj)
    (hne : B.toBytes e.t_obj ≠ []) :
    KVObject.from_bytes P B (KVObject.to_bytes B e) = .ok e := by
  obtain ⟨h1, h2, h3, h4, h5⟩ :=
    slice_chain (MsgType.to_bytes e.msg_type) e.certBytes e.sigBytes
      (B.toBytes e.t_obj) (msgtype_to_bytes_length e.msg_type)
      (certBytes_length e) (sigBytes_length e)
  have hco : e.certBytes = P.certToBytes c := by
    unfold KVObject.certBytes
    rw [hc]
  have hso : e.sigBytes = P.sigToBytes s := by
    unfold KVObject.sigBytes
    rw [hs]
  have hdpos : 0 < (B.toBytes e.t_obj).length := List.length_pos.mpr hne
  have hchain : KVObject.to_bytes B e =
      MsgType.to_bytes e.msg_type ++ e.certBytes ++ e.sigBytes ++
        B.toBytes e.t_obj := rfl
  have hcert : P.certFromBytes e.certBytes = some c := by
    rw [hco]
    exact P.certRoundtrip c
  have hsig : P.sigFromBytes e.sigBytes = some s := by
    rw [hso]
    exact P.sigRoundtrip s
  unfold KVObject.from_bytes
  simp only [MSGTYPE_OFFSET, MSGTYPE_END, MSGTYPE_LEN, CERT_OFFSET, CERT_END,
    CERT_LEN, SIGTURE_OFFSET, SIGTURE_END, SIGTURE_LEN, HEAD_TOTAL_LEN]
  norm_num
  have hne98 : ¬(98 + (B.toBytes e.t_obj).length = 98) := by omega
  have hnlt98 : ¬(98 + (B.toBytes e.t_obj).length < 98) := by omega
  rw [hchain, h5, if_neg hnlt98, h1, msgtype_from_to, h2, hcert, h3, hsig]
  show (if 98 + (B.toBytes e.t_obj).length = 98 then
      Except.error KVObjectError.DeSerializeError
    else
      match B.fromBytes (List.drop 98 (e.msg_type.to_bytes ++ e.certBytes ++
          e.sigBytes ++ B.toBytes e.t_obj)) with
      | Except.error er => Except.error er
      | Except.ok t_obj =>
        Except.ok { msg_type := e.msg_type, cert := some c,
                    signature := some s, t_obj := t_obj }) = Except.ok e
  rw [if_neg hne98, h4, hbody]
  show Except.ok ⟨e.msg_type, some c, some s, e.t_obj⟩ = Except.ok e
  rw [← hc, ← hs]

/-- Counterexample to C1 as stated: `emptyBody` is a body whose decoder
inverts its encoder, signing a fresh envelope around it succeeds, yet
`from_bytes` rejects the serialization — it is exactly 98 bytes (a header
with no body), which decode treats as invalid. -/
theorem kvobject_roundtrip_cex :
    emptyBody.fromBytes (emptyBody.toBytes ()) = .ok () ∧
    (KVObject.fill_kvhead emptyBody () ()
        (KVObject.new trivProvider MsgType.Transaction ())).1 = .ok () ∧
    KVObject.from_bytes trivProvider emptyBody
        (KVObject.to_bytes emptyBody
          (KVObject.fill_kvhead emptyBody () ()
            (KVObject.new trivProvider MsgType.Transaction ())).2) =
      .error .DeSerializeError :=
  ⟨rfl, rfl, by rfl⟩

/-- C1 (amended): for every tag and every body whose decoder inverts its
encoder and whose encoding is non-empty, when the provider succeeds in
signing, `fill_kvhead` followed by `to_bytes` yields bytes that
`from_bytes` decodes into an envelope with the original tag, the original
body and the certificate derived from the signing keypair. -/
theorem kvobject_sign_roundtrip {P : Provider} {T : Type} (B : BodyOps T)
    (tag : MsgType) (t : T) (kp : P.KeyPair) (rng : P.Rng) (s : P.Sig)
    (hbody : B.fromBytes (B.toBytes t) = .ok t)
    (hne : B.toBytes t ≠ [])
    (hsign : P.sign kp (B.toBytes t) rng = some s) :
    (KVObject.fill_kvhead B kp rng (KVObject.new P tag t)).1 = .ok () ∧
    KVObject.from_bytes P B
        (KVObject.to_bytes B
          (KVObject.fill_kvhead B kp rng (KVObject.new P tag t)).2) =
      .ok { msg_type := tag, cert := some (P.getCertificate kp),
            signature := some s, t_obj := t } := by
  have hfill := fill_kvhead_sign_some B kp rng (KVObject.new P tag t) s hsign
  constructor
  · rw [hfill]
  · rw [hfill]
    exact kvobject_from_to B _ (P.getCertificate kp) s rfl rfl hbody hne

/-- Witness for C1 (amended): concrete round trip with the trivial
provider and the 8-byte body. -/
theorem kvobject_sign_roundtrip_witness :
    (KVObject.fill_kvhead octetBody () ()
        (KVObject.new trivProvider MsgType.DigitalCurrency ())).1 = .ok () ∧
    KVObject.from_bytes trivProvider octetBody
        (KVObject.to_bytes octetBody
          (KVObject.fill_kvhead octetBody () ()
            (KVObject.new trivProvider MsgType.DigitalCurrency ())).2) =
      .ok { msg_type := MsgType.DigitalCurrency, cert := some (),
            signature := some (), t_obj := () } :=
  kvobject_sign_roundtrip octetBody MsgType.DigitalCurrency () () () ()
    (by rfl) (by decide) (by rfl)

/-- C7 evaluation: `KeyPairSm2::from_bytes` performs out-of-bounds
indexing (a panic) on the empty input and on a 31-byte input instead of
returning a deserialization error, and accepts a 130-byte input instead of
rejecting a wrong-length buffer; hex deserialization of the empty string
reaches the same out-of-bounds access. -/
theorem keypair_from_bytes_no_length_check :
    KeyPairSm2.from_bytes trivSm2 [] = .panicked ∧
    KeyPairSm2.from_bytes trivSm2 (List.replicate 31 0) = .panicked ∧
    KeyPairSm2.from_bytes trivSm2 (List.replicate 130 0) =
      .ok (KeyPairSm2.new trivSm2 (List.replicate 32 0) () ()
        (List.replicate 32 0)) ∧
    deserializeKeyPairSm2 trivSm2 [] = .panicked :=
  ⟨rfl, by rfl, by rfl, rfl⟩

set_option maxRecDepth 8192 in
/-- C6 evaluation: serializing a keypair whose code differs from its seed
and deserializing the result yields a keypair whose code equals the seed,
not the original code — `to_bytes` writes the seed into bytes 97..129
where `from_bytes` reads the code. -/
theorem keypair_serde_code_not_preserved :
    deserializeKeyPairSm2 trivSm2
        (serializeKeyPairSm2 (KeyPairSm2.new trivSm2 (List.replicate 32 0)
          () () (List.replicate 32 1))) =
      .ok (KeyPairSm2.new trivSm2 (List.replicate 32 0) () ()
        (List.replicate 32 0)) ∧
    (KeyPairSm2.new trivSm2 (List.replicate 32 0) () ()
      (List.replicate 32 1)).code ≠
    (KeyPairSm2.new trivSm2 (List.replicate 32 0) () ()
      (List.replicate 32 0)).code :=
  ⟨by rfl, by decide⟩
